import Mathlib

/-!
Verification development for the MAVKUS per-user conversational orchestrator
(core engine `mavkus.py` plus the serving-layer instance cache in `server.py`).

The Python code is shallowly embedded: in-place mutation becomes explicit state
passing, `datetime` timestamps are abstracted away (no claim depends on them),
Python floats are modelled as rationals, and the external model capabilities
(Groq generation, Gemini answer, critic scoring, the JSON parser `json.loads`,
and the file/Firestore writes) are inputs of each operation.  A Python
exception is modelled as an explicit error value; mutations performed before
the raise are kept, as in Python.
-/

/-- Python `l[-n:]`: the last `n` elements of a list (the whole list when it is
shorter). -/
def pyTakeLast {α : Type} (n : Nat) (l : List α) : List α :=
  l.drop (l.length - n)

/-- Whether `needle` is an initial segment of `hay` (first argument is the
needle, second the haystack). -/
def listStartsWith : List Char → List Char → Bool
  | [], _ => true
  | _ :: _, [] => false
  | a :: as, b :: bs => a == b && listStartsWith as bs

/-- Whether `needle` occurs as a contiguous segment of the second argument;
this is Python's `needle in hay` on strings. -/
def listContainsSub (needle : List Char) : List Char → Bool
  | [] => needle.isEmpty
  | c :: rest => listStartsWith needle (c :: rest) || listContainsSub needle rest

/-- Python `needle in hay` for strings (substring containment). -/
def strContainsSub (hay needle : String) : Bool :=
  listContainsSub needle.toList hay.toList

/-- Lower-casing of a single character as Python's `str.lower` performs it,
restricted to ASCII letters plus the accented uppercase vowels of Italian
(the only non-ASCII letters relevant to the keyword sets). -/
def pyLowerChar (c : Char) : Char :=
  if 'A' ≤ c && c ≤ 'Z' then Char.ofNat (c.toNat + 32)
  else if c = 'À' then 'à'
  else if c = 'È' then 'è'
  else if c = 'É' then 'é'
  else if c = 'Ì' then 'ì'
  else if c = 'Ò' then 'ò'
  else if c = 'Ù' then 'ù'
  else c

/-- Python `message.lower()`. -/
def pyLower (s : String) : String :=
  ⟨s.toList.map pyLowerChar⟩

/-- Python `s.strip()`: remove leading and trailing whitespace. -/
def pyStrip (s : String) : String :=
  ⟨((s.toList.dropWhile Char.isWhitespace).reverse.dropWhile Char.isWhitespace).reverse⟩

/-- Worker for `pySplit`, with explicit fuel (each step consumes at least one
character of the remaining input, so `length + 1` units of fuel suffice). -/
def splitOnSubAux (sep : List Char) : Nat → List Char → List Char → List (List Char)
  | 0, rest, acc => [acc.reverse ++ rest]
  | fuel + 1, s, acc =>
    match s with
    | [] => [acc.reverse]
    | c :: rest =>
      if listStartsWith sep (c :: rest) then
        acc.reverse :: splitOnSubAux sep fuel ((c :: rest).drop sep.length) []
      else
        splitOnSubAux sep fuel rest (c :: acc)

/-- Python `s.split(sep)` for a non-empty separator. -/
def pySplit (s sep : String) : List String :=
  (splitOnSubAux sep.toList (s.toList.length + 1) s.toList []).map (fun l => ⟨l⟩)

/-- JSON values, as returned by `json.loads`.  Python numbers (int and float)
are both modelled as rationals. -/
inductive Json where
  | null : Json
  | bool : Bool → Json
  | num : ℚ → Json
  | str : String → Json
  | arr : List Json → Json
  | obj : List (String × Json) → Json

/-- Python runtime errors relevant to the embedded code paths. -/
inductive PyErr where
  | attributeError : PyErr
  | typeError : PyErr
  | zeroDivisionError : PyErr
  deriving DecidableEq, Repr

/-- Python `value.get(key, default)`: succeeds on a dict (JSON object), raises
`AttributeError` on every other value, exactly as in CPython. -/
def pyDictGet (j : Json) (key : String) (default : Json) : Except PyErr Json :=
  match j with
  | .obj fields => .ok ((fields.lookup key).getD default)
  | _ => .error .attributeError

/-- Numeric view of a JSON value for Python arithmetic and comparisons with a
number: ints/floats are numbers, bools coerce to 0/1 (bool is a subtype of int
in Python), everything else raises `TypeError`. -/
def pyToNum : Json → Option ℚ
  | .num q => some q
  | .bool b => some (if b then 1 else 0)
  | _ => none

/-- Boolean success test of an `Except` value. -/
def exceptIsOk {ε α : Type} : Except ε α → Bool
  | .ok _ => true
  | .error _ => false

/-- Result dict of `GeminiSpecialist.consult`. -/
structure ConsultResult where
  answer : String
  success : Bool
  ai_name : String
  deriving DecidableEq, Repr

/-- State of the `GeminiSpecialist` adapter (`mavkus.py`, class
`GeminiSpecialist`).  `hasModel` records whether `self.model` is a live model
object (as opposed to `None`). -/
structure GeminiSpecialist where
  name : String
  specialty : String
  consultations : Nat
  successes : Nat
  available : Bool
  hasModel : Bool
  deriving DecidableEq, Repr

/-- `GeminiSpecialist.__init__`: the adapter is available exactly when an API
key was supplied and the model construction did not raise (`initOk`). -/
def initGemini (api_key : Option String) (initOk : Bool) : GeminiSpecialist :=
  if api_key.isSome && initOk then
    { name := "Gemini Pro",
      specialty := "Scienze (Fisica, Chimica, Biologia), Matematica, Ricerca",
      consultations := 0, successes := 0, available := true, hasModel := true }
  else
    { name := "Gemini Pro",
      specialty := "Scienze (Fisica, Chimica, Biologia), Matematica, Ricerca",
      consultations := 0, successes := 0, available := false, hasModel := false }

/-- `GeminiSpecialist.consult`.  The outcome of the underlying
`generate_content` call is the `capability` input; its error message is
truncated to 100 characters as in the source. -/
def GeminiSpecialist.consult (g : GeminiSpecialist) (capability : Except String String)
    (question context : String) : ConsultResult × GeminiSpecialist :=
  if !g.available || !g.hasModel then
    ({ answer := "❌ Gemini non disponibile", success := false, ai_name := g.name }, g)
  else
    let g1 : GeminiSpecialist := { g with consultations := g.consultations + 1 }
    match capability with
    | .ok text =>
      ({ answer := text, success := true, ai_name := g1.name },
       { g1 with successes := g1.successes + 1 })
    | .error e =>
      ({ answer := "❌ Errore Gemini: " ++ String.mk (e.toList.take 100),
         success := false, ai_name := g1.name }, g1)

/-- Numeric success rate used by `GeminiSpecialist.get_stats`
(`successes / consultations * 100`, or `0` when there were no consultations);
the percent-string formatting of the source is abstracted to the number. -/
def GeminiSpecialist.successRate (g : GeminiSpecialist) : ℚ :=
  if 0 < g.consultations then (g.successes : ℚ) / (g.consultations : ℚ) * 100 else 0

/-- Return value of `GeminiSpecialist.get_stats`. -/
structure GeminiStats where
  name : String
  specialty : String
  consultations : Nat
  successes : Nat
  success_rate : ℚ
  available : Bool
  deriving DecidableEq, Repr

/-- `GeminiSpecialist.get_stats`. -/
def GeminiSpecialist.get_stats (g : GeminiSpecialist) : GeminiStats :=
  { name := g.name, specialty := g.specialty, consultations := g.consultations,
    successes := g.successes, success_rate := g.successRate, available := g.available }

/-- Nested quality metrics of the user profile. -/
structure QualityMetrics where
  avg_response_score : ℚ
  improvement_trend : List ℚ
  weak_areas : List String
  strong_areas : List String
  deriving DecidableEq, Repr

/-- The per-user behavioural profile (`MavkusAI._init_user_profile`). -/
structure UserProfile where
  style : String
  topics_of_interest : List String
  conversation_count : Nat
  preferred_response_length : String
  language_level : String
  quality_metrics : QualityMetrics
  deriving DecidableEq, Repr

/-- `MavkusAI._init_user_profile`. -/
def initUserProfile : UserProfile :=
  { style := "neutral", topics_of_interest := [], conversation_count := 0,
    preferred_response_length := "medium", language_level := "medium",
    quality_metrics :=
      { avg_response_score := 0, improvement_trend := [], weak_areas := [], strong_areas := [] } }

/-- One entry of the `gemini_consultations` log; the wall-clock timestamp the
source stores alongside is abstracted away. -/
structure Consultation where
  question : String
  success : Bool
  deriving DecidableEq, Repr

/-- Learned-pattern store (`MavkusAI._init_learned_patterns`).  The first
three lists are never written by the engine. -/
structure LearnedPatterns where
  successful_responses : List String
  failed_responses : List String
  improvement_strategies : List String
  gemini_consultations : List Consultation
  deriving DecidableEq, Repr

/-- `MavkusAI._init_learned_patterns`. -/
def initLearnedPatterns : LearnedPatterns :=
  { successful_responses := [], failed_responses := [],
    improvement_strategies := [], gemini_consultations := [] }

/-- Routing statistics (`MavkusAI._init_routing_stats`). -/
structure RoutingStats where
  total_questions : Nat
  routed_to_gemini : Nat
  handled_by_coordinator : Nat
  gemini_success_rate : ℚ
  deriving DecidableEq, Repr

/-- `MavkusAI._init_routing_stats`. -/
def initRoutingStats : RoutingStats :=
  { total_questions := 0, routed_to_gemini := 0, handled_by_coordinator := 0,
    gemini_success_rate := 0 }

/-- Interest keywords scanned by `analyze_user_message` (science list). -/
def interest_science_keywords : List String :=
  ["fisica", "chimica", "biologia", "matematica", "scienza"]

/-- Interest keywords scanned by `analyze_user_message` (coding list). -/
def interest_coding_keywords : List String :=
  ["python", "javascript", "programmazione", "codice", "algoritmo"]

/-- Style classification of `analyze_user_message`, first match wins. -/
def analyzeStyle (message_lower : String) : String :=
  if strContainsSub message_lower "gentilmente" || strContainsSub message_lower "per favore" then
    "formal"
  else if strContainsSub message_lower "ciao" || strContainsSub message_lower "hey" then
    "casual"
  else if strContainsSub message_lower "funzione" || strContainsSub message_lower "codice" then
    "technical"
  else
    "neutral"

/-- The interest list after the append loop of `analyze_user_message` and
before the capacity truncation: every keyword hit that is not already present
is appended, checking membership against the list as it grows. -/
def analyzeTopicsAccum (topics : List String) (message_lower : String) : List String :=
  (interest_science_keywords ++ interest_coding_keywords).foldl
    (fun ts kw =>
      if strContainsSub message_lower kw && !(ts.contains kw) then ts ++ [kw] else ts)
    topics

/-- `MavkusAI.analyze_user_message`: recompute the style and extend the
interest list, truncating it to the most recent 10 entries. -/
def analyze_user_message (p : UserProfile) (message : String) : UserProfile :=
  let ml := pyLower message
  let topics := analyzeTopicsAccum p.topics_of_interest ml
  { p with
    style := analyzeStyle ml,
    topics_of_interest := if topics.length > 10 then pyTakeLast 10 topics else topics }

/-- Keyword set of the routing predicate `should_route_to_gemini`. -/
def routing_science_keywords : List String :=
  ["fisica", "chimica", "biologia", "matematica",
   "atomo", "molecola", "cellula", "equazione",
   "teorema", "energia", "forza", "gravità",
   "relatività", "quantistica", "organico"]

/-- Strong-signal terms the routing predicate tests individually. -/
def strong_signal_keywords : List String := ["fisica", "chimica", "biologia"]

/-- `MavkusAI.should_route_to_gemini`: route when at least two keywords occur
in the lowercased question or any of the three domain names occurs. -/
def should_route_to_gemini (question : String) : Bool :=
  let question_lower := pyLower question
  let science_count :=
    (routing_science_keywords.filter (fun kw => strContainsSub question_lower kw)).length
  decide (science_count ≥ 2)
    || strong_signal_keywords.any (fun kw => strContainsSub question_lower kw)

/-- Number of distinct science keywords occurring in the lowercased message;
this is the spec reading of clause (a) of the routing rule (the keyword list
is duplicate-free, so the filter length counts distinct keywords). -/
def specDistinctKeywordCount (message : String) : Nat :=
  (routing_science_keywords.filter (fun kw => strContainsSub (pyLower message) kw)).length

/-- Spec reading of clause (b) of the routing rule: some strong-signal term
occurs in the lowercased message. -/
def specStrongSignal (message : String) : Bool :=
  strong_signal_keywords.any (fun kw => strContainsSub (pyLower message) kw)

/-- The fixed neutral fallback critique of `_critique_response`. -/
def fallbackCritique : Json :=
  .obj [("scores", .obj [("rilevanza", .num 7), ("chiarezza", .num 7), ("completezza", .num 7),
                         ("accuratezza", .num 7), ("utilita", .num 7)]),
        ("overall_score", .num 7),
        ("strengths", .arr [.str "Risposta generica"]),
        ("weaknesses", .arr [.str "Valutazione non disponibile"]),
        ("improvement_suggestion", .str "Continua a migliorare"),
        ("category", .str "generale")]

/-- Fence stripping of `_critique_response`: strip the payload, then cut out
the segment after the first code-fence marker, as the source does with
`content.split(...)[1].split(...)[0].strip()`. -/
def extractJsonStr (raw : String) : String :=
  let content := pyStrip raw
  if strContainsSub content "```json" then
    pyStrip ((pySplit ((pySplit content "```json").getD 1 "") "```").getD 0 "")
  else if strContainsSub content "```" then
    pyStrip ((pySplit ((pySplit content "```").getD 1 "") "```").getD 0 "")
  else
    content

/-- `MavkusAI._critique_response`.  The critic invocation outcome is the
`capability` input and `json.loads` is the `parseJson` input (returning `none`
exactly when the Python call would raise); every exception inside the `try`
block yields the neutral fallback. -/
def critique_response (capability : Except String String)
    (parseJson : String → Option Json) : Json :=
  match capability with
  | .error _ => fallbackCritique
  | .ok raw =>
    match parseJson (extractJsonStr raw) with
    | some j => j
    | none => fallbackCritique

/-- The strong/weak-area loop of `_learn_from_critique`.  A non-numeric score
value raises `TypeError` at the comparison, aborting the loop but keeping the
entries appended so far, exactly as the in-place Python loop does. -/
def scoresLoop : List (String × Json) → QualityMetrics → QualityMetrics × Option PyErr
  | [], m => (m, none)
  | (area, value) :: rest, m =>
    match pyToNum value with
    | none => (m, some .typeError)
    | some v =>
      if 8 ≤ v ∧ ¬ m.strong_areas.contains area then
        scoresLoop rest { m with strong_areas := m.strong_areas ++ [area] }
      else if v ≤ 5 ∧ ¬ m.weak_areas.contains area then
        scoresLoop rest { m with weak_areas := m.weak_areas ++ [area] }
      else
        scoresLoop rest m

/-- `MavkusAI._learn_from_critique`.  The critique is an arbitrary JSON value
(whatever `json.loads` produced); each step that can raise in Python is
modelled, and mutations performed before a raise are kept. -/
def learn_from_critique (critique : Json) (p : UserProfile) : UserProfile × Option PyErr :=
  match pyDictGet critique "overall_score" (.num 7) with
  | .error e => (p, some e)
  | .ok scoreJ =>
    match pyToNum scoreJ with
    | none => (p, some .typeError)
    | some score =>
      if p.conversation_count = 0 then (p, some .zeroDivisionError)
      else
        let count : ℚ := (p.conversation_count : ℚ)
        let m0 := p.quality_metrics
        let m1 := { m0 with
          avg_response_score := (m0.avg_response_score * (count - 1) + score) / count }
        let trend := m1.improvement_trend ++ [score]
        let m2 := { m1 with
          improvement_trend := if trend.length > 20 then pyTakeLast 20 trend else trend }
        match pyDictGet critique "scores" (.obj []) with
        | .error e => ({ p with quality_metrics := m2 }, some e)
        | .ok scoresJ =>
          match scoresJ with
          | .obj fields =>
            let r := scoresLoop fields m2
            match r.2 with
            | some e => ({ p with quality_metrics := r.1 }, some e)
            | none =>
              let m3 := { r.1 with strong_areas :=
                if r.1.strong_areas.length > 5 then pyTakeLast 5 r.1.strong_areas
                else r.1.strong_areas }
              let m4 := { m3 with weak_areas :=
                if m3.weak_areas.length > 5 then pyTakeLast 5 m3.weak_areas
                else m3.weak_areas }
              ({ p with quality_metrics := m4 }, none)
          | _ => ({ p with quality_metrics := m2 }, some .attributeError)

/-- Message roles of the LangChain message list (system, human, ai). -/
inductive Role where
  | system : Role
  | human : Role
  | ai : Role
  deriving DecidableEq, Repr

/-- One in-memory message (`InMemoryChatMessageHistory` entries and the
messages handed to the generalist). -/
structure LCMsg where
  role : Role
  content : String
  deriving DecidableEq, Repr

/-- Outcomes of the external calls a single turn can perform.  `genCapability`
is `self.model.invoke` (a function of the message list it is given),
`geminiCapability` the specialist answer, `criticCapability` the raw critic
text, `parseJson` models `json.loads` (`none` when it would raise), and
`saveOk` whether the periodic file write succeeds. -/
structure TurnOracle where
  geminiCapability : Except String String
  genCapability : List LCMsg → Except String String
  criticCapability : Except String String
  parseJson : String → Option Json
  saveOk : Bool

/-- One serialized chat message of the memory file; the re-stamped timestamp
the source writes next to it is abstracted away. -/
structure SavedMsg where
  role : String
  content : String
  deriving DecidableEq, Repr

/-- The per-user memory blob written by `save_memory` (`last_saved` and the
per-message timestamps abstracted). -/
structure SavedData where
  user_id : String
  user_profile : UserProfile
  learned_patterns : LearnedPatterns
  routing_stats : RoutingStats
  gemini_stats : GeminiStats
  chat_history : List SavedMsg
  deriving DecidableEq, Repr

/-- The in-memory state of one `MavkusAI` instance; `store` is the content of
the instance's backing memory file. -/
structure MState where
  user_id : String
  gemini : GeminiSpecialist
  chat_history : List LCMsg
  user_profile : UserProfile
  learned_patterns : LearnedPatterns
  routing_stats : RoutingStats
  store : Option SavedData
  deriving DecidableEq, Repr

/-- Text of `_get_system_prompt`.  The source renders the profile with
`json.dumps` and percent-formats the stats; that rendering is abstracted to a
plain concatenation, since no claim depends on the prompt text. -/
def systemPromptText (p : UserProfile) (r : RoutingStats) (g : GeminiSpecialist) : String :=
  "Sei MAVKUS. PROFILO UTENTE: " ++ p.style ++
  " SPECIALISTA DISPONIBILE: Gemini Pro: " ++ g.specialty ++
  " Domande totali: " ++ toString r.total_questions ++
  " Inviate a Gemini: " ++ toString r.routed_to_gemini

/-- Serialization of one chat message in `save_memory`
(`"human" if isinstance(msg, HumanMessage) else "ai"`). -/
def serializeMsg (m : LCMsg) : SavedMsg :=
  { role := if m.role = Role.human then "human" else "ai", content := m.content }

/-- `MavkusAI.save_memory`: the blob written for the current state, keeping
only the last 50 chat messages. -/
def save_data (s : MState) : SavedData :=
  { user_id := s.user_id, user_profile := s.user_profile,
    learned_patterns := s.learned_patterns, routing_stats := s.routing_stats,
    gemini_stats := s.gemini.get_stats,
    chat_history := (pyTakeLast 50 s.chat_history).map serializeMsg }

/-- Rebuilding of one chat message in `load_memory` (`add_user_message` for
role `"human"`, otherwise `add_ai_message`). -/
def deserializeMsg (m : SavedMsg) : LCMsg :=
  { role := if m.role = "human" then Role.human else Role.ai, content := m.content }

/-- `MavkusAI.load_memory`: with no backing file (or unreadable content,
treated as absence) the state is unchanged; otherwise profile, patterns and
stats are taken from the file and the history is replayed from it. -/
def load_memory (s : MState) (file : Option SavedData) : MState :=
  match file with
  | none => s
  | some d =>
    { s with
      user_profile := d.user_profile,
      learned_patterns := d.learned_patterns,
      routing_stats := d.routing_stats,
      chat_history := d.chat_history.map deserializeMsg }

/-- `MavkusAI.__init__` for a user with no saved memory: fresh defaults, then
`load_memory` over the absent file. -/
def freshMState (uid : String) (gemini_api_key : Option String) (geminiInitOk : Bool) : MState :=
  load_memory
    { user_id := uid, gemini := initGemini gemini_api_key geminiInitOk,
      chat_history := [], user_profile := initUserProfile,
      learned_patterns := initLearnedPatterns, routing_stats := initRoutingStats,
      store := none }
    none

/-- Profile after the analysis step of `chat` (style/interests update and the
`conversation_count` increment). -/
def chatProfile1 (s : MState) (user_message : String) : UserProfile :=
  let p := analyze_user_message s.user_profile user_message
  { p with conversation_count := p.conversation_count + 1 }

/-- Result of the routing step of `chat`. -/
structure RoutingOutcome where
  gemini_response : Option ConsultResult
  gemini : GeminiSpecialist
  routing_stats : RoutingStats
  learned_patterns : LearnedPatterns

/-- Routing step of `chat`: bump `total_questions`; when the decision says
specialist and the adapter is available, bump `routed_to_gemini`, consult, and
log a successful consultation; otherwise bump `handled_by_coordinator`. -/
def chatRouting (s : MState) (o : TurnOracle) (user_message : String)
    (p1 : UserProfile) : RoutingOutcome :=
  let r0 := { s.routing_stats with total_questions := s.routing_stats.total_questions + 1 }
  if should_route_to_gemini user_message && s.gemini.available then
    let r1 := { r0 with routed_to_gemini := r0.routed_to_gemini + 1 }
    let c := s.gemini.consult o.geminiCapability user_message ("Stile: " ++ p1.style)
    let lp :=
      if c.1.success then
        { s.learned_patterns with gemini_consultations :=
            s.learned_patterns.gemini_consultations ++
              [{ question := String.mk (user_message.toList.take 100), success := true }] }
      else s.learned_patterns
    { gemini_response := some c.1, gemini := c.2, routing_stats := r1, learned_patterns := lp }
  else
    { gemini_response := none, gemini := s.gemini,
      routing_stats := { r0 with handled_by_coordinator := r0.handled_by_coordinator + 1 },
      learned_patterns := s.learned_patterns }

/-- The history window sent to the generalist: the last 10 messages of the
history after the new user message has been appended
(`self.chat_history.messages[-10:]`). -/
def chatHistorySlice (s : MState) (user_message : String) : List LCMsg :=
  pyTakeLast 10 (s.chat_history ++ [{ role := Role.human, content := user_message }])

/-- The system messages of the turn: the system prompt, plus the specialist
context when the consultation succeeded (text abbreviated as in
`systemPromptText`). -/
def chatSystemMessages (s : MState) (o : TurnOracle) (user_message : String) : List LCMsg :=
  let p1 := chatProfile1 s user_message
  let ro := chatRouting s o user_message p1
  { role := Role.system, content := systemPromptText p1 ro.routing_stats ro.gemini } ::
    (match ro.gemini_response with
     | some res =>
       if res.success then
         [{ role := Role.system,
            content := "CONSULENZA SCIENTIFICA da Gemini: " ++ res.answer ++
              " Usa queste informazioni per rispondere." }]
       else []
     | none => [])

/-- The full message list handed to the generalist capability. -/
def chatSentMessages (s : MState) (o : TurnOracle) (user_message : String) : List LCMsg :=
  chatSystemMessages s o user_message ++ chatHistorySlice s user_message

/-- The response text of the turn: the generated content, or the synthesized
visible error string when generation fails. -/
def chatResponseText (s : MState) (o : TurnOracle) (user_message : String) : String :=
  match o.genCapability (chatSentMessages s o user_message) with
  | .ok text => text
  | .error e => "❌ Errore generazione risposta: " ++ e

/-- Metadata dict returned by `chat`. -/
structure Metadata where
  routed_to_gemini : Bool
  gemini_used : Bool
  gemini_response : Option ConsultResult
  critique : Json

/-- The critique step of `chat`: when enabled, run `_critique_response` and
`_learn_from_critique`; the components are the critique payload, the profile
after learning (including partial mutations when learning raises), and the
raised error if any. -/
def chatCritique (o : TurnOracle) (p1 : UserProfile) (enable_critique : Bool) :
    Json × UserProfile × Option PyErr :=
  if enable_critique then
    let c := critique_response o.criticCapability o.parseJson
    let r := learn_from_critique c p1
    (c, r.1, r.2)
  else (Json.obj [], p1, none)

/-- The state of the instance when the turn reaches (or would have reached)
the periodic-save step: all in-place mutations of the turn are applied, the
store is untouched. -/
def chatPost (s : MState) (o : TurnOracle) (user_message : String)
    (enable_critique : Bool) : MState :=
  let p1 := chatProfile1 s user_message
  let ro := chatRouting s o user_message p1
  { user_id := s.user_id, gemini := ro.gemini,
    chat_history := s.chat_history ++
      [{ role := Role.human, content := user_message },
       { role := Role.ai, content := chatResponseText s o user_message }],
    user_profile := (chatCritique o p1 enable_critique).2.1,
    learned_patterns := ro.learned_patterns, routing_stats := ro.routing_stats,
    store := s.store }

/-- `MavkusAI.chat`: the whole turn pipeline.  The first component is the
returned `(response, metadata)` pair, or the Python exception that escaped
the method; the second component is the instance state afterwards (in-place
mutations survive an escaped exception, and the periodic save at every 5th
conversation is skipped when the exception fires before it). -/
def chat (s : MState) (o : TurnOracle) (user_message : String)
    (enable_critique : Bool := true) : Except PyErr (String × Metadata) × MState :=
  let p1 := chatProfile1 s user_message
  let ro := chatRouting s o user_message p1
  let cr := chatCritique o p1 enable_critique
  let post := chatPost s o user_message enable_critique
  let final :=
    if cr.2.2.isNone && decide (post.user_profile.conversation_count % 5 = 0) && o.saveOk then
      { post with store := some (save_data post) }
    else post
  let result : Except PyErr (String × Metadata) :=
    match cr.2.2 with
    | some e => .error e
    | none =>
      .ok (chatResponseText s o user_message,
        { routed_to_gemini := should_route_to_gemini user_message,
          gemini_used := (match ro.gemini_response with
            | some r => r.success
            | none => false),
          gemini_response := ro.gemini_response,
          critique := cr.1 })
  (result, final)

/-- One driver turn: a user message together with the oracle outcomes of the
external calls of that turn. -/
structure Turn where
  message : String
  oracle : TurnOracle
  enable_critique : Bool

/-- Run a sequence of turns; the Boolean is `true` when every turn returned
normally (no escaped Python exception). -/
def runTurns : MState → List Turn → MState × Bool
  | s, [] => (s, true)
  | s, t :: rest =>
    let r := chat s t.oracle t.message t.enable_critique
    let rec' := runTurns r.2 rest
    (rec'.1, exceptIsOk r.1 && rec'.2)

/-- Oracle of a turn whose generation succeeds and whose critic payload parses
to an object carrying the given overall score. -/
def oracleFor (score : ℚ) : TurnOracle :=
  { geminiCapability := .ok "risposta",
    genCapability := fun _ => .ok "ok",
    criticCapability := .ok "critica",
    parseJson := fun _ => some (.obj [("overall_score", .num score)]),
    saveOk := true }

/-- A critique-enabled turn with the given message and overall score. -/
def scoredTurn (m : String) (score : ℚ) : Turn :=
  { message := m, oracle := oracleFor score, enable_critique := true }

/-- Run a sequence of critique-enabled turns with the given messages and
overall scores. -/
def runScored (s : MState) (turns : List (String × ℚ)) : MState :=
  (runTurns s (turns.map (fun t => scoredTurn t.1 t.2))).1

/-- A user's model credentials as stored/passed by the serving layer. -/
structure ApiKeys where
  groq_api_key : Option String
  gemini_api_key : Option String
  deriving DecidableEq, Repr

/-- What matters of a constructed `MavkusAI` instance for the cache claims:
the user and the credentials it was built with. -/
structure AIInstance where
  user_id : String
  keys : ApiKeys
  deriving DecidableEq, Repr

/-- Serving-layer state: the per-user keys held by the document store
(decrypted view; the Fernet layer is an external bijection) and the
`lru_cache` memo table of `_create_ai_instance`. -/
structure ServerWorld where
  storedKeys : List (String × ApiKeys)
  cache : List (String × AIInstance)
  envGroq : Option String
  deriving DecidableEq, Repr

/-- `firebase_service.get_api_keys`: the stored keys of a user, empty when
absent. -/
def getApiKeysStored (w : ServerWorld) (uid : String) : ApiKeys :=
  (w.storedKeys.lookup uid).getD { groq_api_key := none, gemini_api_key := none }

/-- Construction of a `MavkusAI` for a user: fails (`ValueError`) when
neither the stored keys nor the environment provide a Groq key. -/
def constructAI (w : ServerWorld) (uid : String) : Except String AIInstance :=
  let keys := getApiKeysStored w uid
  match keys.groq_api_key.orElse (fun _ => w.envGroq) with
  | none => .error "GROQ_API_KEY mancante"
  | some _ => .ok { user_id := uid, keys := keys }

/-- `_create_ai_instance` with its `lru_cache` memoization: a hit returns the
cached instance; a miss constructs and caches on success, and propagates an
HTTP 500 on construction failure without caching (the LRU eviction at
capacity 100 is not relevant to any claim and is not modelled). -/
def create_ai_instance (w : ServerWorld) (uid : String) :
    Except String AIInstance × ServerWorld :=
  match w.cache.lookup uid with
  | some inst => (.ok inst, w)
  | none =>
    match constructAI w uid with
    | .ok inst => (.ok inst, { w with cache := w.cache ++ [(uid, inst)] })
    | .error e => (.error e, w)

/-- The two module-level functions of `server.py` involved in instance
caching. -/
inductive ServerFn where
  | createAiInstance : ServerFn
  | getAiInstance : ServerFn
  deriving DecidableEq, Repr

/-- Which of the two functions carries the `lru_cache` wrapper (and hence a
`cache_clear` attribute): only the decorated factory `_create_ai_instance`
does; `get_ai_instance` is a plain function. -/
def hasLruCache : ServerFn → Bool
  | .createAiInstance => true
  | .getAiInstance => false

/-- Python attribute call `f.cache_clear()`: empties the memo table when `f`
is `lru_cache`-wrapped, raises `AttributeError` otherwise. -/
def pyCacheClear (f : ServerFn) (cache : List (String × AIInstance)) :
    Except PyErr (List (String × AIInstance)) :=
  if hasLruCache f then .ok [] else .error .attributeError

/-- Body of the `/api/auth/save-keys` request. -/
structure SaveKeysRequest where
  user_id : String
  groq_api_key : Option String
  gemini_api_key : Option String
  deriving DecidableEq, Repr

/-- HTTP outcome of a handler: success payload (names of the keys saved) or
an error status. -/
inductive HttpResponse where
  | ok : List String → HttpResponse
  | error : Nat → HttpResponse
  deriving DecidableEq, Repr

/-- Python truthiness of an optional string (`None` and `""` are falsy). -/
def pyTruthy (o : Option String) : Bool :=
  match o with
  | some s => !s.isEmpty
  | none => false

/-- `firebase_service.save_api_keys`: on success the user's stored keys are
replaced; on failure (exception swallowed inside the service) it returns
`False` and stores nothing. -/
def firebaseSaveKeys (w : ServerWorld) (uid : String) (keys : ApiKeys) (writeOk : Bool) :
    Bool × ServerWorld :=
  if writeOk then
    (true, { w with storedKeys := (uid, keys) :: w.storedKeys.filter (fun kv => kv.1 != uid) })
  else (false, w)

/-- The endpoint handler `save_api_keys` of `server.py`: build the key dict
from the truthy request fields, write it to the store, and on success call
`get_ai_instance.cache_clear()`; any exception inside the `try` block becomes
an HTTP 500. -/
def save_api_keys (w : ServerWorld) (req : SaveKeysRequest) (writeOk : Bool) :
    HttpResponse × ServerWorld :=
  let api_keys : ApiKeys :=
    { groq_api_key := if pyTruthy req.groq_api_key then req.groq_api_key else none,
      gemini_api_key := if pyTruthy req.gemini_api_key then req.gemini_api_key else none }
  let r := firebaseSaveKeys w req.user_id api_keys writeOk
  if r.1 then
    match pyCacheClear ServerFn.getAiInstance r.2.cache with
    | .ok c =>
      (.ok ((if pyTruthy req.groq_api_key then ["groq_api_key"] else []) ++
            (if pyTruthy req.gemini_api_key then ["gemini_api_key"] else [])),
       { r.2 with cache := c })
    | .error _ => (.error 500, r.2)
  else (.error 500, r.2)

/-- Oracle of a turn whose critic returns the two-character text of a JSON
array, so that `json.loads` succeeds with a (non-dict) list. -/
def arrayPayloadOracle : TurnOracle :=
  { geminiCapability := .ok "", genCapability := fun _ => .ok "risposta",
    criticCapability := .ok "[]",
    parseJson := fun str => if str = "[]" then some (.arr []) else none,
    saveOk := true }

/-- Oracle whose critic payload parses to an object with six high numeric
criterion scores followed by a string-valued one. -/
def stringScoreOracle : TurnOracle :=
  { geminiCapability := .ok "", genCapability := fun _ => .ok "risposta",
    criticCapability := .ok "testo",
    parseJson := fun _ => some (.obj
      [("overall_score", .num 8),
       ("scores", .obj [("a", .num 9), ("b", .num 9), ("c", .num 9), ("d", .num 9),
                        ("e", .num 9), ("f", .num 9), ("g", .str "alta")])]),
    saveOk := true }

/-- Oracle of a turn with no usable critic payload. -/
def noParseOracle : TurnOracle :=
  { geminiCapability := .ok "", genCapability := fun _ => .ok "r1",
    criticCapability := .ok "testo", parseJson := fun _ => none, saveOk := true }

/-- Oracle of a turn with a successful specialist consultation. -/
def specialistOkOracle : TurnOracle :=
  { geminiCapability := .ok "risposta scientifica", genCapability := fun _ => .ok "ok",
    criticCapability := .ok "testo", parseJson := fun _ => none, saveOk := true }

/-- An orchestrator state for a user whose Gemini key is configured and whose
specialist initialized, with no saved memory. -/
def availableState : MState := freshMState "u" (some "chiave") true

/-- Serving-layer state holding one cached instance for user `u1`, built from
the currently stored (old) Groq key. -/
def staleWorld : ServerWorld where
  storedKeys := [("u1", { groq_api_key := some "vecchia", gemini_api_key := none })]
  cache := [("u1", { user_id := "u1", keys := { groq_api_key := some "vecchia", gemini_api_key := none } })]
  envGroq := none

/-- A save-keys request replacing the Groq key of user `u1`. -/
def newKeysRequest : SaveKeysRequest :=
  { user_id := "u1", groq_api_key := some "nuova", gemini_api_key := none }

/-- Profile of a user after one conversation turn, used to instantiate
hypotheses about `_learn_from_critique`. -/
def profileAfterOneTurn : UserProfile :=
  { initUserProfile with conversation_count := 1 }

/-- Oracle of a turn whose generalist call fails. -/
def genFailOracle : TurnOracle :=
  { geminiCapability := .ok "", genCapability := fun _ => .error "rete giu",
    criticCapability := .ok "testo", parseJson := fun _ => none, saveOk := true }

/-! ### Supporting lemmas -/

theorem pyTakeLast_length_le {α : Type} (n : Nat) (l : List α) :
    (pyTakeLast n l).length ≤ n := by
  simp [pyTakeLast]
  omega

theorem pyTakeLast_suffix {α : Type} (n : Nat) (l : List α) :
    pyTakeLast n l <:+ l :=
  List.drop_suffix _ _

theorem learn_from_critique_fields (c : Json) (p : UserProfile) :
    ∃ qm, (learn_from_critique c p).1 = { p with quality_metrics := qm } := by
  unfold learn_from_critique
  dsimp only
  repeat' split
  all_goals exact ⟨_, rfl⟩

theorem learn_topics (c : Json) (p : UserProfile) :
    (learn_from_critique c p).1.topics_of_interest = p.topics_of_interest := by
  obtain ⟨qm, h⟩ := learn_from_critique_fields c p
  rw [h]

theorem learn_result_cases (c : Json) (p : UserProfile) :
    (learn_from_critique c p).2 = none →
    ∃ m : QualityMetrics,
      (learn_from_critique c p).1 = { p with quality_metrics := m }
      ∧ m.strong_areas.length ≤ 5 ∧ m.weak_areas.length ≤ 5 := by
  unfold learn_from_critique
  dsimp only
  repeat' split
  all_goals intro h
  all_goals first
    | exact Option.noConfusion h
    | (refine ⟨_, rfl, ?_, ?_⟩ <;>
        (try simp only [pyTakeLast, List.length_drop] at *) <;> omega)

theorem scoresLoop_trend (fs : List (String × Json)) :
    ∀ m : QualityMetrics, (scoresLoop fs m).1.improvement_trend = m.improvement_trend := by
  induction fs with
  | nil => intro m; rfl
  | cons f rest ih =>
    intro m
    obtain ⟨area, value⟩ := f
    unfold scoresLoop
    rcases hv : pyToNum value with _ | v <;> simp only [hv]
    split
    · rw [ih]
    · split
      · rw [ih]
      · rw [ih]

theorem learn_trend_le (c : Json) (p : UserProfile)
    (h : p.quality_metrics.improvement_trend.length ≤ 20) :
    (learn_from_critique c p).1.quality_metrics.improvement_trend.length ≤ 20 := by
  unfold learn_from_critique
  dsimp only
  repeat' split
  all_goals try rw [scoresLoop_trend]
  all_goals (try simp only [pyTakeLast, List.length_drop, List.length_append,
    List.length_cons, List.length_nil] at *)
  all_goals omega

theorem analyze_topics_le (p : UserProfile) (m : String) :
    (analyze_user_message p m).topics_of_interest.length ≤ 10 := by
  unfold analyze_user_message
  dsimp only
  split
  · exact pyTakeLast_length_le _ _
  · omega

theorem analyze_topics_suffix (p : UserProfile) (m : String) :
    (analyze_user_message p m).topics_of_interest <:+
      analyzeTopicsAccum p.topics_of_interest (pyLower m) := by
  unfold analyze_user_message
  dsimp only
  split
  · exact pyTakeLast_suffix _ _
  · exact List.suffix_refl _

theorem chatProfile1_topics (s : MState) (m : String) :
    (chatProfile1 s m).topics_of_interest
      = (analyze_user_message s.user_profile m).topics_of_interest := rfl

theorem chatProfile1_metrics (s : MState) (m : String) :
    (chatProfile1 s m).quality_metrics = s.user_profile.quality_metrics := rfl

theorem chatProfile1_count (s : MState) (m : String) :
    (chatProfile1 s m).conversation_count = s.user_profile.conversation_count + 1 := rfl

theorem chat_snd_user_profile (s : MState) (o : TurnOracle) (m : String) (ec : Bool) :
    (chat s o m ec).2.user_profile = (chatCritique o (chatProfile1 s m) ec).2.1 := by
  unfold chat
  dsimp only
  split <;> rfl

theorem chat_snd_chat_history (s : MState) (o : TurnOracle) (m : String) (ec : Bool) :
    (chat s o m ec).2.chat_history
      = s.chat_history ++ [{ role := Role.human, content := m },
          { role := Role.ai, content := chatResponseText s o m }] := by
  unfold chat
  dsimp only
  split <;> rfl

theorem chat_snd_routing_stats (s : MState) (o : TurnOracle) (m : String) (ec : Bool) :
    (chat s o m ec).2.routing_stats
      = (chatRouting s o m (chatProfile1 s m)).routing_stats := by
  unfold chat
  dsimp only
  split <;> rfl

theorem chat_fst_ok_iff (s : MState) (o : TurnOracle) (m : String) (ec : Bool) :
    exceptIsOk (chat s o m ec).1 = true
      ↔ (chatCritique o (chatProfile1 s m) ec).2.2 = none := by
  unfold chat
  dsimp only
  cases h : (chatCritique o (chatProfile1 s m) ec).2.2 <;> simp [h, exceptIsOk]

theorem chatRouting_rate (s : MState) (o : TurnOracle) (m : String) (p1 : UserProfile) :
    (chatRouting s o m p1).routing_stats.gemini_success_rate
      = s.routing_stats.gemini_success_rate := by
  unfold chatRouting
  dsimp only
  split <;> rfl

theorem chatCritique_profile (o : TurnOracle) (p1 : UserProfile) (ec : Bool) :
    (chatCritique o p1 ec).2.1
      = if ec then
          (learn_from_critique (critique_response o.criticCapability o.parseJson) p1).1
        else p1 := by
  unfold chatCritique
  split <;> rfl

theorem chatCritique_err_true (o : TurnOracle) (p1 : UserProfile) :
    (chatCritique o p1 true).2.2
      = (learn_from_critique (critique_response o.criticCapability o.parseJson) p1).2 := rfl

theorem chat_topics_le (s : MState) (o : TurnOracle) (m : String) (ec : Bool) :
    (chat s o m ec).2.user_profile.topics_of_interest.length ≤ 10 := by
  rw [chat_snd_user_profile, chatCritique_profile]
  split
  · rw [learn_topics, chatProfile1_topics]
    exact analyze_topics_le _ _
  · rw [chatProfile1_topics]
    exact analyze_topics_le _ _

theorem chat_trend_le (s : MState) (o : TurnOracle) (m : String) (ec : Bool)
    (h : s.user_profile.quality_metrics.improvement_trend.length ≤ 20) :
    (chat s o m ec).2.user_profile.quality_metrics.improvement_trend.length ≤ 20 := by
  rw [chat_snd_user_profile, chatCritique_profile]
  split
  · exact learn_trend_le _ _ (by rw [chatProfile1_metrics]; exact h)
  · rw [chatProfile1_metrics]
    exact h

theorem chat_strong_weak_le (s : MState) (o : TurnOracle) (m : String) (ec : Bool)
    (hs : s.user_profile.quality_metrics.strong_areas.length ≤ 5)
    (hw : s.user_profile.quality_metrics.weak_areas.length ≤ 5)
    (hok : exceptIsOk (chat s o m ec).1 = true) :
    (chat s o m ec).2.user_profile.quality_metrics.strong_areas.length ≤ 5
    ∧ (chat s o m ec).2.user_profile.quality_metrics.weak_areas.length ≤ 5 := by
  rw [chat_snd_user_profile, chatCritique_profile]
  cases ec with
  | false =>
    simp only [Bool.false_eq_true, if_false]
    rw [chatProfile1_metrics]
    exact ⟨hs, hw⟩
  | true =>
    simp only [if_true]
    have hnone : (learn_from_critique
        (critique_response o.criticCapability o.parseJson) (chatProfile1 s m)).2 = none := by
      rw [← chatCritique_err_true]
      exact (chat_fst_ok_iff s o m true).1 hok
    obtain ⟨qm, heq, h5s, h5w⟩ := learn_result_cases _ _ hnone
    rw [heq]
    exact ⟨h5s, h5w⟩

theorem runTurns_cons (s : MState) (t : Turn) (ts : List Turn) :
    runTurns s (t :: ts)
      = ((runTurns (chat s t.oracle t.message t.enable_critique).2 ts).1,
         exceptIsOk (chat s t.oracle t.message t.enable_critique).1
           && (runTurns (chat s t.oracle t.message t.enable_critique).2 ts).2) := rfl

theorem runTurns_topics_trend (ts : List Turn) :
    ∀ s : MState,
      s.user_profile.topics_of_interest.length ≤ 10 →
      s.user_profile.quality_metrics.improvement_trend.length ≤ 20 →
      (runTurns s ts).1.user_profile.topics_of_interest.length ≤ 10
      ∧ (runTurns s ts).1.user_profile.quality_metrics.improvement_trend.length ≤ 20 := by
  induction ts with
  | nil => intro s h10 h20; exact ⟨h10, h20⟩
  | cons t rest ih =>
    intro s h10 h20
    rw [runTurns_cons]
    dsimp only
    exact ih _ (chat_topics_le _ _ _ _) (chat_trend_le _ _ _ _ h20)

theorem runTurns_strong_weak (ts : List Turn) :
    ∀ s : MState,
      s.user_profile.quality_metrics.strong_areas.length ≤ 5 →
      s.user_profile.quality_metrics.weak_areas.length ≤ 5 →
      (runTurns s ts).2 = true →
      (runTurns s ts).1.user_profile.quality_metrics.strong_areas.length ≤ 5
      ∧ (runTurns s ts).1.user_profile.quality_metrics.weak_areas.length ≤ 5 := by
  induction ts with
  | nil => intro s h5 h5' _; exact ⟨h5, h5'⟩
  | cons t rest ih =>
    intro s hs hw hflag
    rw [runTurns_cons] at hflag ⊢
    dsimp only at hflag ⊢
    rw [Bool.and_eq_true] at hflag
    obtain ⟨hok, hrest⟩ := hflag
    obtain ⟨hs1, hw1⟩ := chat_strong_weak_le s t.oracle t.message t.enable_critique hs hw hok
    exact ih _ hs1 hw1 hrest

/-! ### Claim theorems -/

theorem freshMState_profile (uid : String) (k : Option String) (ok : Bool) :
    (freshMState uid k ok).user_profile = initUserProfile := rfl

/-- C1: the routing predicate returns true exactly when at least 2 distinct
keywords of the science set occur in the lowercased message or a strong-signal
domain name occurs (the keyword list is duplicate-free, so the count is over
distinct keywords); in particular a message with exactly one, non-strong
keyword is handled by the generalist. -/
theorem C1_routing_characterization :
    (∀ q : String, should_route_to_gemini q
        = (decide (2 ≤ specDistinctKeywordCount q) || specStrongSignal q))
    ∧ routing_science_keywords.Nodup
    ∧ (∀ q : String, specDistinctKeywordCount q = 1 → specStrongSignal q = false →
        should_route_to_gemini q = false) := by
  have hmain : ∀ q : String, should_route_to_gemini q
      = (decide (2 ≤ specDistinctKeywordCount q) || specStrongSignal q) := fun q => rfl
  refine ⟨hmain, by decide, fun q h1 h2 => ?_⟩
  rw [hmain, h1, h2]
  decide

/-- Witness for C1 at the one-keyword message "atomo". -/
theorem C1_routing_witness :
    specDistinctKeywordCount "atomo" = 1 ∧ specStrongSignal "atomo" = false
    ∧ should_route_to_gemini "atomo" = false :=
  ⟨by decide, by decide, C1_routing_characterization.2.2 "atomo" (by decide) (by decide)⟩

/-- C2 (code bug): a critic payload that is valid JSON but not an object (the
text of an empty JSON list) passes `_critique_response` untouched, and
`_learn_from_critique` then raises `AttributeError`, which escapes
`MavkusAI.chat` instead of being recovered — the turn aborts without
returning a response. -/
theorem C2_unhandled_critique_exception :
    (chat (freshMState "u" none false) arrayPayloadOracle "ciao" true).1
      = Except.error PyErr.attributeError := by
  rfl

/-- C5 counterexample: a consult call on an unavailable specialist does not
increment the consultation counter, contradicting the claim that every call
(including failed ones) increments it. -/
theorem C5_counterexample :
    ¬ (((initGemini none false).consult (Except.ok "risposta") "domanda" "contesto").2.consultations
        = (initGemini none false).consultations + 1) := by
  decide

/-- C5 amended: `consult` increments the consultation counter exactly on the
calls that pass the availability check (including those that then fail);
the success counter is incremented exactly on successful calls; when the
specialist is unavailable the call short-circuits with `success = false` and
leaves the adapter state completely unchanged. -/
theorem C5_consult_counters (g : GeminiSpecialist) (cap : Except String String)
    (q c : String) :
    ((g.consult cap q c).2.consultations
        = if g.available && g.hasModel then g.consultations + 1 else g.consultations)
    ∧ ((g.consult cap q c).2.successes
        = if g.available && g.hasModel && exceptIsOk cap then g.successes + 1 else g.successes)
    ∧ ((g.consult cap q c).1.success = (g.available && g.hasModel && exceptIsOk cap))
    ∧ ((g.available && g.hasModel) = false → (g.consult cap q c).2 = g
        ∧ (g.consult cap q c).1.success = false) := by
  cases hA : g.available <;> cases hM : g.hasModel <;> cases cap <;>
    simp [GeminiSpecialist.consult, hA, hM, exceptIsOk]

/-- Witness for C5 at a concrete unavailable adapter. -/
theorem C5_consult_witness :
    ((initGemini none false).consult (Except.ok "risposta") "domanda" "contesto").2
        = initGemini none false
    ∧ ((initGemini none false).consult (Except.ok "risposta") "domanda" "contesto").1.success
        = false :=
  (C5_consult_counters (initGemini none false)
    (Except.ok "risposta") "domanda" "contesto").2.2.2 (by decide)

/-- C6 counterexample: one critique-enabled turn from a fresh state whose
parsed scores hold six high numeric values followed by a string value leaves
`strong_areas` with 6 entries — the `TypeError` aborts the loop before the
capacity truncation runs. -/
theorem C6_counterexample :
    ¬ ((chat (freshMState "u" none false) stringScoreOracle "ciao" true).2.user_profile.quality_metrics.strong_areas.length ≤ 5) := by
  decide

/-- C6 amended: after any sequence of turns from a fresh state
`topics_of_interest` has at most 10 elements and `improvement_trend` at most
20, unconditionally; `strong_areas` and `weak_areas` have at most 5 elements
provided no turn aborted with an escaped exception; truncation always keeps a
suffix, so eviction is from the front (oldest first). -/
theorem C6_capacity_bounds :
    (∀ (uid : String) (k : Option String) (ok : Bool) (ts : List Turn),
        (runTurns (freshMState uid k ok) ts).1.user_profile.topics_of_interest.length ≤ 10
        ∧ (runTurns (freshMState uid k ok) ts).1.user_profile.quality_metrics.improvement_trend.length ≤ 20)
    ∧ (∀ (uid : String) (k : Option String) (ok : Bool) (ts : List Turn),
        (runTurns (freshMState uid k ok) ts).2 = true →
        (runTurns (freshMState uid k ok) ts).1.user_profile.quality_metrics.strong_areas.length ≤ 5
        ∧ (runTurns (freshMState uid k ok) ts).1.user_profile.quality_metrics.weak_areas.length ≤ 5)
    ∧ (∀ (p : UserProfile) (m : String),
        (analyze_user_message p m).topics_of_interest <:+
          analyzeTopicsAccum p.topics_of_interest (pyLower m)) := by
  refine ⟨fun uid k ok ts => ?_, fun uid k ok ts hflag => ?_, analyze_topics_suffix⟩
  · exact runTurns_topics_trend ts (freshMState uid k ok)
      (by rw [freshMState_profile]; decide) (by rw [freshMState_profile]; decide)
  · exact runTurns_strong_weak ts (freshMState uid k ok)
      (by rw [freshMState_profile]; decide) (by rw [freshMState_profile]; decide) hflag

/-- Witness for C6: a concrete error-free turn satisfies the guarded part. -/
theorem C6_capacity_witness :
    (runTurns (freshMState "u" none false) [scoredTurn "ciao" 9]).2 = true
    ∧ ((runTurns (freshMState "u" none false) [scoredTurn "ciao" 9]).1.user_profile.quality_metrics.strong_areas.length ≤ 5
       ∧ (runTurns (freshMState "u" none false) [scoredTurn "ciao" 9]).1.user_profile.quality_metrics.weak_areas.length ≤ 5) :=
  ⟨by decide, C6_capacity_bounds.2.1 "u" none false [scoredTurn "ciao" 9] (by decide)⟩

/-- C8: for a freshly constructed aggregate, saving and re-loading the memory
blob restores an identical user profile, routing stats and chat history
(timestamps are re-stamped at save time and are outside the state). -/
theorem C8_save_load_roundtrip (uid : String) (k : Option String) (ok : Bool) :
    (load_memory (freshMState uid k ok) (some (save_data (freshMState uid k ok)))).user_profile = (freshMState uid k ok).user_profile
    ∧ (load_memory (freshMState uid k ok) (some (save_data (freshMState uid k ok)))).routing_stats = (freshMState uid k ok).routing_stats
    ∧ (load_memory (freshMState uid k ok) (some (save_data (freshMState uid k ok)))).chat_history = (freshMState uid k ok).chat_history :=
  ⟨rfl, rfl, rfl⟩

/-- C9 counterexample: after a turn with a successful specialist consultation
the RoutingStats field still holds 0 while the adapter computes a 100 percent
success rate, so the field does not equal the adapter rate after the turn. -/
theorem C9_counterexample :
    ((chat availableState specialistOkOracle "fisica quantistica" false).2.routing_stats.gemini_success_rate = 0)
    ∧ ((chat availableState specialistOkOracle "fisica quantistica" false).2.gemini.consultations = 1)
    ∧ ((chat availableState specialistOkOracle "fisica quantistica" false).2.gemini.successes = 1)
    ∧ (GeminiSpecialist.successRate (chat availableState specialistOkOracle "fisica quantistica" false).2.gemini = 100)
    ∧ ¬ ((chat availableState specialistOkOracle "fisica quantistica" false).2.routing_stats.gemini_success_rate
        = GeminiSpecialist.successRate (chat availableState specialistOkOracle "fisica quantistica" false).2.gemini) := by
  have h0 : (chat availableState specialistOkOracle "fisica quantistica" false).2.routing_stats.gemini_success_rate = 0 := by
    decide
  have h1 : (chat availableState specialistOkOracle "fisica quantistica" false).2.gemini.consultations = 1 := by
    decide
  have h2 : (chat availableState specialistOkOracle "fisica quantistica" false).2.gemini.successes = 1 := by
    decide
  have hrate : GeminiSpecialist.successRate (chat availableState specialistOkOracle "fisica quantistica" false).2.gemini = 100 := by
    unfold GeminiSpecialist.successRate
    rw [h1, h2]
    norm_num
  refine ⟨h0, h1, h2, hrate, ?_⟩
  rw [h0, hrate]
  norm_num

/-- C9 amended: the `gemini_success_rate` field of RoutingStats is 0 at
initialization and is never updated by any turn; the specialist success rate
reported by `get_stats` is instead computed from the adapter counters. -/
theorem C9_rate_never_updated :
    initRoutingStats.gemini_success_rate = 0
    ∧ (∀ (s : MState) (o : TurnOracle) (m : String) (ec : Bool),
        (chat s o m ec).2.routing_stats.gemini_success_rate = s.routing_stats.gemini_success_rate)
    ∧ (∀ g : GeminiSpecialist, (GeminiSpecialist.get_stats g).success_rate = g.successRate) := by
  refine ⟨rfl, fun s o m ec => ?_, fun g => rfl⟩
  rw [chat_snd_routing_stats, chatRouting_rate]

/-- C10: every turn appends exactly the new user message and the assistant
message (which is the synthesized error string when generation fails) to the
in-memory history, which is never truncated; the generalist receives the
system messages plus the last 10 history messages (a suffix including the new
user message); a save writes at most the last 50 messages. -/
theorem C10_history_discipline :
    (∀ (s : MState) (o : TurnOracle) (m : String) (ec : Bool),
      (chat s o m ec).2.chat_history
          = s.chat_history ++ [{ role := Role.human, content := m },
              { role := Role.ai, content := chatResponseText s o m }]
      ∧ (chat s o m ec).2.chat_history.length = s.chat_history.length + 2)
    ∧ (∀ (s : MState) (o : TurnOracle) (m : String),
        chatSentMessages s o m = chatSystemMessages s o m ++ chatHistorySlice s m
        ∧ (chatHistorySlice s m).length ≤ 10
        ∧ chatHistorySlice s m <:+
            s.chat_history ++ [{ role := Role.human, content := m }])
    ∧ (∀ st : MState, (save_data st).chat_history.length ≤ 50)
    ∧ (∀ (s : MState) (o : TurnOracle) (m : String) (e : String),
        o.genCapability (chatSentMessages s o m) = Except.error e →
        chatResponseText s o m = "❌ Errore generazione risposta: " ++ e) := by
  refine ⟨fun s o m ec => ⟨chat_snd_chat_history s o m ec, ?_⟩,
    fun s o m => ⟨rfl, pyTakeLast_length_le _ _, pyTakeLast_suffix _ _⟩,
    fun st => ?_, fun s o m e h => ?_⟩
  · rw [chat_snd_chat_history]
    simp
  · show ((pyTakeLast 50 st.chat_history).map serializeMsg).length ≤ 50
    rw [List.length_map]
    exact pyTakeLast_length_le _ _
  · unfold chatResponseText
    rw [h]

/-- Witness for C10: a concrete failing generation yields the visible error
string as the response text. -/
theorem C10_history_witness :
    chatResponseText (freshMState "u" none false) genFailOracle "ciao"
      = "❌ Errore generazione risposta: rete giu" :=
  C10_history_discipline.2.2.2 (freshMState "u" none false) genFailOracle "ciao" "rete giu" rfl

/-- C4 (code bug): a save-keys request whose store write succeeds returns an
HTTP 500 (the `cache_clear` attribute call on the undecorated `get_ai_instance`
raises `AttributeError`), leaves the memo table of `_create_ai_instance`
untouched, and the next instance request for the user is served the cached
instance built with the old credentials. -/
theorem C4_save_keys_stale_cache :
    ((save_api_keys staleWorld newKeysRequest true).1 = HttpResponse.error 500)
    ∧ (getApiKeysStored (save_api_keys staleWorld newKeysRequest true).2 "u1").groq_api_key = some "nuova"
    ∧ ((save_api_keys staleWorld newKeysRequest true).2.cache = staleWorld.cache)
    ∧ ((create_ai_instance (save_api_keys staleWorld newKeysRequest true).2 "u1").1
        = Except.ok { user_id := "u1", keys := { groq_api_key := some "vecchia", gemini_api_key := none } }) :=
  ⟨rfl, rfl, rfl, rfl⟩

theorem chat_scored_step (s : MState) (m : String) (sc : ℚ) :
    (chat s (oracleFor sc) m true).2.user_profile.conversation_count
        = s.user_profile.conversation_count + 1
    ∧ (chat s (oracleFor sc) m true).2.user_profile.quality_metrics.avg_response_score
        = (s.user_profile.quality_metrics.avg_response_score
            * (((s.user_profile.conversation_count + 1 : Nat) : ℚ) - 1) + sc)
          / ((s.user_profile.conversation_count + 1 : Nat) : ℚ) := by
  have h := chat_snd_user_profile s (oracleFor sc) m true
  constructor
  · rw [h]; rfl
  · rw [h]; rfl

theorem learn_fallback (p : UserProfile) (hc : p.conversation_count ≠ 0) :
    (learn_from_critique fallbackCritique p).2 = none
    ∧ (learn_from_critique fallbackCritique p).1.quality_metrics.avg_response_score
        = (p.quality_metrics.avg_response_score * ((p.conversation_count : ℚ) - 1) + 7)
          / (p.conversation_count : ℚ) := by
  obtain ⟨st, tp, cnt, prl, ll, qm⟩ := p
  cases cnt with
  | zero => exact absurd rfl hc
  | succ n => exact ⟨rfl, rfl⟩

/-- C7: whenever the critic invocation fails or its fence-stripped payload
does not parse as JSON, `_critique_response` returns the fixed neutral
fallback (all criterion scores 7, overall 7.0), and `_learn_from_critique`
on that fallback completes without error, folding the score 7 into
`avg_response_score`. -/
theorem C7_critique_fallback (cap : Except String String) (parseJson : String → Option Json)
    (p : UserProfile) (e raw : String)
    (h : cap = Except.error e ∨ (cap = Except.ok raw ∧ parseJson (extractJsonStr raw) = none))
    (hc : 1 ≤ p.conversation_count) :
    critique_response cap parseJson = fallbackCritique
    ∧ (learn_from_critique fallbackCritique p).2 = none
    ∧ (learn_from_critique fallbackCritique p).1.quality_metrics.avg_response_score
        = (p.quality_metrics.avg_response_score * ((p.conversation_count : ℚ) - 1) + 7)
          / (p.conversation_count : ℚ) := by
  have hl := learn_fallback p (by omega)
  refine ⟨?_, hl.1, hl.2⟩
  rcases h with h | ⟨h1, h2⟩
  · rw [h]
    rfl
  · rw [h1]
    unfold critique_response
    dsimp only
    rw [h2]

/-- Witness for C7 at a concrete unparsable critic payload and a profile
with one conversation. -/
theorem C7_critique_witness :
    critique_response (Except.ok "niente") (fun _ => none) = fallbackCritique
    ∧ (learn_from_critique fallbackCritique profileAfterOneTurn).2 = none
    ∧ (learn_from_critique fallbackCritique profileAfterOneTurn).1.quality_metrics.avg_response_score
        = (profileAfterOneTurn.quality_metrics.avg_response_score
            * ((profileAfterOneTurn.conversation_count : ℚ) - 1) + 7)
          / (profileAfterOneTurn.conversation_count : ℚ) :=
  C7_critique_fallback (Except.ok "niente") (fun _ => none) profileAfterOneTurn "x" "niente"
    (Or.inr ⟨rfl, rfl⟩) (by decide)

theorem runScored_cons (s : MState) (t : String × ℚ) (ts : List (String × ℚ)) :
    runScored s (t :: ts) = runScored ((chat s (oracleFor t.2) t.1 true).2) ts := rfl

theorem runScored_count_avg (ts : List (String × ℚ)) :
    ∀ s : MState,
      (runScored s ts).user_profile.conversation_count
          = s.user_profile.conversation_count + ts.length
      ∧ (runScored s ts).user_profile.quality_metrics.avg_response_score
            * ((s.user_profile.conversation_count + ts.length : Nat) : ℚ)
        = s.user_profile.quality_metrics.avg_response_score
            * (s.user_profile.conversation_count : ℚ)
          + (ts.map Prod.snd).sum := by
  induction ts with
  | nil =>
    intro s
    have h0 : runScored s [] = s := rfl
    rw [h0]
    refine ⟨by simp, by simp⟩
  | cons t rest ih =>
    intro s
    rw [runScored_cons]
    obtain ⟨hc, ha⟩ := chat_scored_step s t.1 t.2
    obtain ⟨ihc, iha⟩ := ih ((chat s (oracleFor t.2) t.1 true).2)
    rw [hc] at ihc iha
    rw [ha] at iha
    constructor
    · rw [ihc]
      simp [List.length_cons]
      omega
    · have hne : ((s.user_profile.conversation_count + 1 : Nat) : ℚ) ≠ 0 :=
        Nat.cast_ne_zero.mpr (Nat.succ_ne_zero _)
      rw [List.length_cons, List.map_cons, List.sum_cons]
      have harr : s.user_profile.conversation_count + 1 + rest.length
          = s.user_profile.conversation_count + (rest.length + 1) := by omega
      rw [harr] at iha
      rw [iha]
      field_simp
      ring

/-- C3 amended: after any non-empty sequence of critique-enabled turns from
a fresh state, `avg_response_score` equals the arithmetic mean of the overall
scores folded in (one per turn) — independent of the `improvement_trend`
truncation, which the computation never reads. -/
theorem C3_avg_is_mean (uid : String) (k : Option String) (ok : Bool)
    (ts : List (String × ℚ)) (h : ts ≠ []) :
    (runScored (freshMState uid k ok) ts).user_profile.quality_metrics.avg_response_score
      = (ts.map Prod.snd).sum / (ts.length : ℚ) := by
  obtain ⟨hc, ha⟩ := runScored_count_avg ts (freshMState uid k ok)
  rw [freshMState_profile] at ha
  have h0c : initUserProfile.conversation_count = 0 := rfl
  have h0a : initUserProfile.quality_metrics.avg_response_score = 0 := rfl
  rw [h0c, h0a] at ha
  simp only [Nat.zero_add, Nat.cast_zero, zero_mul, zero_add] at ha
  have hlen : (ts.length : ℚ) ≠ 0 := by
    have hl : ts.length ≠ 0 := by
      cases ts with
      | nil => exact absurd rfl h
      | cons a l => simp
    exact_mod_cast hl
  rw [eq_div_iff hlen]
  rw [freshMState_profile] at hc  -- not strictly needed
  exact ha

/-- Witness for C3: three turns scored 8, 6 and 10 leave the average at 8. -/
theorem C3_avg_witness :
    (runScored (freshMState "u" none false) [("a", 8), ("b", 6), ("c", 10)]).user_profile.quality_metrics.avg_response_score = 8 := by
  have h := C3_avg_is_mean "u" none false [("a", 8), ("b", 6), ("c", 10)] (by simp)
  rw [h]
  norm_num

/-- C3 counterexample: one critique-disabled turn followed by one turn scored
10 leaves `avg_response_score` at 5, not at the mean (10) of the scores
received — the incremental average divides by the full conversation count. -/
theorem C3_counterexample :
    ((chat ((chat (freshMState "u" none false) noParseOracle "ciao" false).2)
        (oracleFor 10) "come stai" true).2.user_profile.quality_metrics.avg_response_score = 5)
    ∧ ¬ ((chat ((chat (freshMState "u" none false) noParseOracle "ciao" false).2)
        (oracleFor 10) "come stai" true).2.user_profile.quality_metrics.avg_response_score = 10) := by
  have hc1 : ((chat (freshMState "u" none false) noParseOracle "ciao" false).2).user_profile.conversation_count = 1 := rfl
  have ha1 : ((chat (freshMState "u" none false) noParseOracle "ciao" false).2).user_profile.quality_metrics.avg_response_score = 0 := rfl
  obtain ⟨hc2, ha2⟩ :=
    chat_scored_step ((chat (freshMState "u" none false) noParseOracle "ciao" false).2) "come stai" 10
  rw [hc1, ha1] at ha2
  constructor
  · rw [ha2]
    norm_num
  · rw [ha2]
    norm_num
